import Mathlib

/-!
Verification development for the massive-video-reviewer repository.

The frontend review client (src/frontend/App.tsx, first variant: PAGE_SIZE 6,
debouncedSave, updateVideoData, handleSearch) is embedded as an explicit
event-driven state machine; the Express backend (the unnamed server file) is
embedded as a request/response function over its in-memory state.  All
definitions are transcribed from the source; the one exception is
clampPageSpec, which transcribes the formula from the design document so that
the navigation code can be compared against it.

Modelling conventions:
  - JavaScript numbers holding page indices are modelled as Int (the code can
    produce -1), catalog sizes as Nat.
  - The labels object Record string VideoLabel with spread update
    (prev spread with key assigned) is modelled as an association list where
    an update prepends and lookup takes the first hit: last update wins,
    exactly the object-spread semantics.
  - React state updates become explicit state passing.  User interactions are
    discrete events; between two discrete events React has re-rendered and run
    effects, so stateRef.current equals the committed state at the start of
    each event.  setTimeout is modelled by a timer record carrying the closure
    payload and the remaining delay; a tick event advances time.
  - fetch calls to /api/save are modelled as dispatched Payload values; the
    save outcome, where a claim needs it, is an explicit Bool.
-/

/-- Disposition values of frontend/types.ts: LabelStatus is TP or FP.
TP is the accept disposition, FP the reject disposition. -/
inductive LabelStatus where
  | TP
  | FP
deriving DecidableEq, Repr

/-- VideoLabel of frontend/types.ts: a status plus a free-text tag. -/
structure VideoLabel where
  status : LabelStatus
  tag : String
deriving DecidableEq, Repr

/-- The labels object of App.tsx: Record from video key to VideoLabel,
modelled as an association list where the most recent binding is first. -/
abbrev LabelMap := List (String × VideoLabel)

/-- Object-spread update (prev spread with key bound to v): prepend, so that
lookup by first match sees the newest binding. -/
def labelsSet (m : LabelMap) (k : String) (v : VideoLabel) : LabelMap :=
  (k, v) :: m

/-- Raw lookup in the labels object. -/
def labelsFind (m : LabelMap) (k : String) : Option VideoLabel :=
  (m.find? (fun p => p.1 == k)).map (fun p => p.2)

/-- Resolved label of a key as the page annotation in loadPage computes it for
an already-upgraded map: the stored value, or the default TP with empty tag
when the key is absent (App.tsx lines 54-61). -/
def labelsGet (m : LabelMap) (k : String) : VideoLabel :=
  (labelsFind m k).getD ⟨.TP, ""⟩

/-- PAGE_SIZE constant of App.tsx (first variant). -/
def PAGE_SIZE : ℕ := 6

/-- Debounce delay of debouncedSave in milliseconds. -/
def DEBOUNCE_MS : ℕ := 500

/-- Total page count, Math.ceil(videoKeys.length / PAGE_SIZE) from App.tsx
line 230 (and 117), on naturals: for a positive page size this equals the
ceiling of the division. -/
def totalPages (len ps : ℕ) : ℕ := (len + ps - 1) / ps

/-- Next-page computation of handleGlobalKeyDown (App.tsx line 117):
Math.min(currentPage + 1, totalPages - 1).  There is no lower clamp. -/
def nextPageKey (cur : ℤ) (len ps : ℕ) : ℤ :=
  min (cur + 1) ((totalPages len ps : ℤ) - 1)

/-- Previous-page computation of handleGlobalKeyDown (App.tsx line 121):
Math.max(0, currentPage - 1).  There is no upper clamp. -/
def prevPageKey (cur : ℤ) : ℤ := max 0 (cur - 1)

/-- Next-button handler of the Pagination component:
onChange(Math.min(total - 1, current + 1)). -/
def paginationNext (cur total : ℤ) : ℤ := min (total - 1) (cur + 1)

/-- Previous-button handler of the Pagination component:
onChange(Math.max(0, current - 1)). -/
def paginationPrev (cur : ℤ) : ℤ := max 0 (cur - 1)

/-- Modelled from the spec: clampPage(requested, totalPages) =
max(0, min(requested, totalPages - 1)).  This is the design-document formula
(section 4.3), written down to be compared with the navigation code. -/
def clampPageSpec (requested total : ℤ) : ℤ :=
  max 0 (min requested (total - 1))

/-- Pending debounce timer: the setTimeout callback of debouncedSave closes
over the page and labels arguments passed when it was scheduled; remaining is
the time left until it fires. -/
structure Timer where
  page : ℤ
  labels : LabelMap
  remaining : ℕ
deriving DecidableEq, Repr

/-- Body of a POST to /api/save: lastPage plus the full label map. -/
structure Payload where
  lastPage : ℤ
  labels : LabelMap
deriving DecidableEq, Repr

/-- Frontend session state: the committed React state plus the pending
debounce timer.  Transient presentation flags (isSaving, focusedIndex,
pageVideos) are not needed by the persistence claims and are omitted. -/
structure FrontState where
  videoKeys : List String
  labels : LabelMap
  currentPage : ℤ
  timer : Option Timer
deriving DecidableEq, Repr

/-- Payload of a save dispatched from saveState: read through stateRef at the
moment of the call (App.tsx lines 81-84). -/
def savePayload (st : FrontState) : Payload := ⟨st.currentPage, st.labels⟩

/-- Discrete user-visible events driving the session. -/
inductive Event where
  | setLabel (key : String) (status : LabelStatus) (tag : String)
  | navNext
  | navPrev
  | manualSave
  | tick (ms : ℕ)
deriving DecidableEq, Repr

/-- One event step.  Returns the next state and the list of save payloads
dispatched during the event, in dispatch order.  Transcribed from App.tsx:
setLabel is updateVideoData (lines 185-200: update the map, then fetch
/api/save immediately with the new map and the current page; the debounce
timer is not touched); navNext and navPrev are the PageDown/PageUp branches of
handleGlobalKeyDown (lines 116-124: compute the target page, set it, and call
debouncedSave(target, stateRef.current.labels), which clears any pending
timer and starts a fresh 500 ms one closing over its arguments); manualSave
is saveState (lines 75-93: an immediate fetch of the stateRef snapshot,
leaving the timer alone); tick lets time pass, firing the timer with the
payload it closed over when scheduled if its delay has elapsed. -/
def step (st : FrontState) : Event → FrontState × List Payload
  | .setLabel k s t =>
      let newLabels := labelsSet st.labels k ⟨s, t⟩
      ({ st with labels := newLabels }, [⟨st.currentPage, newLabels⟩])
  | .navNext =>
      let p := nextPageKey st.currentPage st.videoKeys.length PAGE_SIZE
      ({ st with currentPage := p,
                 timer := some ⟨p, st.labels, DEBOUNCE_MS⟩ }, [])
  | .navPrev =>
      let p := prevPageKey st.currentPage
      ({ st with currentPage := p,
                 timer := some ⟨p, st.labels, DEBOUNCE_MS⟩ }, [])
  | .manualSave => (st, [savePayload st])
  | .tick ms =>
      match st.timer with
      | none => (st, [])
      | some t =>
          if t.remaining ≤ ms then
            ({ st with timer := none }, [⟨t.page, t.labels⟩])
          else
            ({ st with timer := some ⟨t.page, t.labels, t.remaining - ms⟩ }, [])

/-- Run a sequence of events, collecting all dispatched payloads in order. -/
def runEvents (st : FrontState) : List Event → FrontState × List Payload
  | [] => (st, [])
  | e :: es =>
      let r1 := step st e
      let r2 := runEvents r1.1 es
      (r2.1, r1.2 ++ r2.2)

/-- Response body of GET /api/init as the frontend consumes it. -/
structure InitResponse where
  videoKeys : List String
  labels : LabelMap
  lastPage : ℤ
deriving DecidableEq, Repr

/-- initApp (App.tsx lines 25-41): store the catalog and labels and set
currentPage to data.lastPage (the JavaScript fallback to 0 only replaces a
falsy value, which for an integer page is 0 itself, hence the identity).  No
clamping is applied to lastPage. -/
def initApp (resp : InitResponse) : FrontState :=
  { videoKeys := resp.videoKeys
  , labels := resp.labels
  , currentPage := resp.lastPage
  , timer := none }

/-- Manual save with an explicit write outcome (saveState, App.tsx 75-93):
the payload is the stateRef snapshot at the call; on failure an alert is
raised; the in-memory state is returned untouched in either case.  The result
is the state, the dispatched payload, and whether the failure alert fired. -/
def saveState (st : FrontState) (ok : Bool) : FrontState × Payload × Bool :=
  (st, savePayload st, !ok)

/-- Value bound to a key in the labels mapping as loaded from the durable
document: either the current object shape or the legacy bare disposition
string. -/
inductive StoredLabel where
  | legacyStr (s : String)
  | obj (status : String) (tag : String)
deriving DecidableEq, Repr

/-- Loaded labels mapping before upgrade. -/
abbrev StoredLabels := List (String × StoredLabel)

/-- Page annotation of loadPage (App.tsx lines 54-61): when the stored value
is an object, take its status and tag fields; otherwise take the bare value
itself as status, falling back to TP when it is absent or falsy (the empty
string), with an empty tag. -/
def annotateLabel (labels : StoredLabels) (key : String) : String × String :=
  match (labels.find? (fun p => p.1 == key)).map (fun p => p.2) with
  | some (StoredLabel.obj s t) => (s, t)
  | some (StoredLabel.legacyStr s) => (if s = "" then "TP" else s, "")
  | none => ("TP", "")

/-- Array.prototype.findIndex as an option-valued index. -/
def findIndexJS (p : α → Bool) : List α → Option ℕ
  | [] => none
  | a :: as =>
      if p a then some 0 else (findIndexJS p as).map (fun i => i + 1)

/-- Lower-casing as String.prototype.toLowerCase (per-character lowering; the
catalogs at issue are ASCII, where the two agree). -/
def lowerStr (s : String) : String := String.mk (s.data.map Char.toLower)

/-- Substring containment of String.prototype.includes on the underlying
character lists. -/
def containsSub (hay needle : List Char) : Bool :=
  hay.tails.any (fun t => needle.isPrefixOf t)

/-- The search predicate of handleSearch (App.tsx 169-171):
key.toLowerCase().includes(query.toLowerCase()). -/
def includesCI (key q : String) : Bool :=
  containsSub (lowerStr key).data (lowerStr q).data

/-- String.prototype.trim: drop leading and trailing whitespace, written over
the character list. -/
def trimJS (s : String) : String :=
  String.mk (((s.data.dropWhile Char.isWhitespace).reverse.dropWhile
    Char.isWhitespace).reverse)

/-- Whether the element at index j of a list satisfies a Bool predicate
(false beyond the end). -/
def hitAt (p : α → Bool) (l : List α) (j : ℕ) : Bool :=
  match l.get? j with
  | some a => p a
  | none => false

/-- Whether the catalog entry at index j matches the query. -/
def matchesAt (keys : List String) (q : String) : ℕ → Bool :=
  hitAt (fun k => includesCI k q) keys

/-- Outcome of a search: a jump to a page and in-page index, the not-found
alert, or the silent return on an all-whitespace query. -/
inductive SearchOutcome where
  | jumped (page idx : ℕ)
  | notFound
  | emptyQuery
deriving DecidableEq, Repr

/-- handleSearch (App.tsx lines 163-183) acting on the session cursor
(currentPage, focusedIndex): an empty trimmed query returns silently; a hit
at catalog index i sets the page to i / pageSize and the focus to
i % pageSize; a miss alerts and leaves the cursor untouched. -/
def handleSearch (keys : List String) (ps : ℕ) (q : String) (cursor : ℤ × ℕ) :
    (ℤ × ℕ) × SearchOutcome :=
  if trimJS q = "" then (cursor, .emptyQuery)
  else
    match findIndexJS (fun k => includesCI k q) keys with
    | some i => (((i / ps : ℕ), i % ps), .jumped (i / ps) (i % ps))
    | none => (cursor, .notFound)

/-- Backend in-memory state (the unnamed Express server file): the cached
catalog, the in-memory dbState document, and the durable S3 document as of
the last successful PutObject (none when the object was never written). -/
structure BackendState where
  cachedVideoKeys : List String
  dbState : Payload
  s3Doc : Option Payload
deriving DecidableEq, Repr

/-- POST /api/save (server lines 159-179): dbState is replaced by the request
body before the PutObject attempt; on success the durable document is
overwritten and 200 returned, on failure the durable document is untouched
and 500 returned, with dbState replaced either way. -/
def apiSave (st : BackendState) (body : Payload) (s3ok : Bool) :
    BackendState × ℕ :=
  let st1 := { st with dbState := body }
  if s3ok then ({ st1 with s3Doc := some body }, 200) else (st1, 500)

/-- GET /api/init (server lines 124-134): serves the cached catalog and the
fields of the in-memory dbState document. -/
def apiInit (st : BackendState) : InitResponse :=
  ⟨st.cachedVideoKeys, st.dbState.labels, st.dbState.lastPage⟩

/-- Apply a sequence of set operations (updateVideoData map updates) to a
label map, in order. -/
def applySets (m : LabelMap) (ops : List (String × VideoLabel)) : LabelMap :=
  ops.foldl (fun acc p => labelsSet acc p.1 p.2) m

/-- The value of the last set to a given key in a sequence of sets, if any. -/
def lastSetTo (ops : List (String × VideoLabel)) (k : String) :
    Option VideoLabel :=
  match ops with
  | [] => none
  | p :: rest =>
      match lastSetTo rest k with
      | some v => some v
      | none => if p.1 = k then some p.2 else none

/-- Navigation direction for burst statements. -/
inductive NavDir where
  | next
  | prev
deriving DecidableEq, Repr

/-- The keydown event of a direction. -/
def navEvent : NavDir → Event
  | .next => .navNext
  | .prev => .navPrev

/-- Event trace of the later navigations of a burst: for each pair (gap, dir)
a pause of gap milliseconds followed by that navigation. -/
def burstTail (rest : List (ℕ × NavDir)) : List Event :=
  rest.foldr (fun p acc => .tick p.1 :: navEvent p.2 :: acc) []

/-- Event trace of a navigation burst: a first navigation, then for each pair
(gap, dir) a pause of gap milliseconds followed by that navigation. -/
def burstEvents (first : NavDir) (rest : List (ℕ × NavDir)) : List Event :=
  navEvent first :: burstTail rest

/-- State right after a navigation landed on page P: the page is set and a
fresh debounce timer holds the page and the labels read at schedule time. -/
def navState (st : FrontState) (P : ℤ) : FrontState :=
  { st with currentPage := P, timer := some ⟨P, st.labels, DEBOUNCE_MS⟩ }

/-- State after g milliseconds elapsed on a freshly scheduled timer. -/
def pausedState (st : FrontState) (g : ℕ) : FrontState :=
  { st with timer := some ⟨st.currentPage, st.labels, DEBOUNCE_MS - g⟩ }

/-- Demo session fixture: eight catalog keys (two pages at PAGE_SIZE 6), no
labels yet, starting on page 0. -/
def demoState : FrontState :=
  initApp ⟨["v0", "v1", "v2", "v3", "v4", "v5", "v6", "v7"], [], 0⟩

/-- Demo session fixture with one stored label and a pending debounce timer
that was scheduled while the label map was still empty. -/
def demoTimerState : FrontState :=
  { videoKeys := ["v0"], labels := [("v0", ⟨.FP, "y"⟩)], currentPage := 0,
    timer := some ⟨0, [], DEBOUNCE_MS⟩ }

/-! Helper lemmas shared by the claim theorems. -/

/-- Reading a key after an object-spread update: the written value for the
updated key, the previous resolution for every other key. -/
theorem labelsGet_set (m : LabelMap) (k k' : String) (v : VideoLabel) :
    labelsGet (labelsSet m k v) k' = if k = k' then v else labelsGet m k' := by
  unfold labelsGet labelsFind labelsSet
  by_cases h : k = k'
  · rw [List.find?_cons_of_pos _ (by simpa using h)]
    simp [h]
  · rw [List.find?_cons_of_neg _ (by simpa using h)]
    simp [h]

/-- Reading a key after a sequence of updates: the last update to that key if
there was one, otherwise the resolution in the starting map. -/
theorem get_applySets (ops : List (String × VideoLabel)) :
    ∀ (m : LabelMap) (k : String),
      labelsGet (applySets m ops) k = (lastSetTo ops k).getD (labelsGet m k) := by
  induction ops with
  | nil => intro m k; rfl
  | cons p rest ih =>
      intro m k
      have h1 : applySets m (p :: rest) = applySets (labelsSet m p.1 p.2) rest := rfl
      rw [h1, ih, labelsGet_set]
      cases hrest : lastSetTo rest k with
      | some v => simp [lastSetTo, hrest]
      | none =>
          by_cases hp : p.1 = k
          · simp [lastSetTo, hrest, hp]
          · simp [lastSetTo, hrest, hp]

/-- findIndex misses when no element satisfies the predicate. -/
theorem findIndexJS_none_of (p : α → Bool) (l : List α)
    (h : ∀ a ∈ l, p a = false) : findIndexJS p l = none := by
  induction l with
  | nil => rfl
  | cons a as ih =>
      rw [findIndexJS, h a (by simp), if_neg (by simp),
        ih (fun b hb => h b (by simp [hb]))]
      rfl

/-- findIndex returns the index of the first element satisfying the
predicate. -/
theorem findIndexJS_first (p : α → Bool) :
    ∀ (l : List α) (i : ℕ), hitAt p l i = true →
      (∀ j, j < i → hitAt p l j = false) → findIndexJS p l = some i := by
  intro l
  induction l with
  | nil => intro i hi _; simp [hitAt] at hi
  | cons a as ih =>
      intro i hi hmin
      cases i with
      | zero =>
          have ha : p a = true := by simpa [hitAt] using hi
          simp [findIndexJS, ha]
      | succ i' =>
          have ha : p a = false := by
            have h0 := hmin 0 (Nat.succ_pos _)
            simpa [hitAt] using h0
          have hi' : hitAt p as i' = true := by simpa [hitAt] using hi
          have hmin' : ∀ j, j < i' → hitAt p as j = false := by
            intro j hj
            have := hmin (j + 1) (by omega)
            simpa [hitAt] using this
          simp [findIndexJS, ha, ih i' hi' hmin']

/-- Unfolding lemma for one event of a run. -/
theorem runEvents_cons (st : FrontState) (e : Event) (es : List Event) :
    runEvents st (e :: es) =
      ((runEvents (step st e).1 es).1,
        (step st e).2 ++ (runEvents (step st e).1 es).2) := rfl

/-- Runs compose: the writes of a concatenated trace are the writes of the
first part followed by the writes of the second part run from its end
state. -/
theorem runEvents_append (l1 l2 : List Event) : ∀ st : FrontState,
    runEvents st (l1 ++ l2) =
      ((runEvents (runEvents st l1).1 l2).1,
        (runEvents st l1).2 ++ (runEvents (runEvents st l1).1 l2).2) := by
  induction l1 with
  | nil => intro st; simp [runEvents]
  | cons e es ih =>
      intro st
      rw [List.cons_append, runEvents_cons, ih, runEvents_cons]
      simp [List.append_assoc]

/-- A navigation keydown dispatches no write, lands on some page, and
replaces the pending timer by a fresh one capturing that page and the labels
read at schedule time. -/
theorem step_nav (st : FrontState) (d : NavDir) :
    ∃ P : ℤ, step st (navEvent d) = (navState st P, []) := by
  cases d
  · exact ⟨_, rfl⟩
  · exact ⟨_, rfl⟩

/-- Invariant of a navigation burst after its first navigation: while every
gap stays below the debounce window, no write is dispatched, the label map is
untouched, and the single pending timer holds the current page, the label map
from before the burst, and a full window. -/
theorem burst_tail_run (rest : List (ℕ × NavDir)) :
    (∀ p ∈ rest, p.1 < DEBOUNCE_MS) →
    ∀ st : FrontState,
      st.timer = some ⟨st.currentPage, st.labels, DEBOUNCE_MS⟩ →
      (runEvents st (burstTail rest)).2 = [] ∧
      (runEvents st (burstTail rest)).1.labels = st.labels ∧
      (runEvents st (burstTail rest)).1.timer =
        some ⟨(runEvents st (burstTail rest)).1.currentPage, st.labels,
          DEBOUNCE_MS⟩ := by
  induction rest with
  | nil =>
      intro _ st hst
      exact ⟨rfl, rfl, by simpa [runEvents, burstTail] using hst⟩
  | cons p rest ih =>
      intro hgap st hst
      obtain ⟨g, d⟩ := p
      have hg : g < DEBOUNCE_MS := hgap (g, d) (by simp)
      have hnle : ¬ (DEBOUNCE_MS ≤ g) := by omega
      have htick : step st (.tick g) = (pausedState st g, ([] : List Payload)) := by
        simp [step, hst, hnle, pausedState]
      obtain ⟨P, hnav⟩ := step_nav (pausedState st g) d
      have hbt : burstTail ((g, d) :: rest) =
          .tick g :: navEvent d :: burstTail rest := rfl
      rw [hbt, runEvents_cons, htick]
      simp only []
      rw [runEvents_cons, hnav]
      simp only [List.nil_append]
      have hpre : (navState (pausedState st g) P).timer =
          some ⟨(navState (pausedState st g) P).currentPage,
            (navState (pausedState st g) P).labels, DEBOUNCE_MS⟩ := rfl
      have h2 := ih (fun q hq => hgap q (by simp [hq]))
        (navState (pausedState st g) P) hpre
      exact ⟨h2.1, h2.2.1, h2.2.2⟩

/-! Claim theorems. -/

/-- C1, counterexample to the claim as stated: starting from the demo
session, navigate (which schedules the debounce timer over the then-empty
label map), mutate the label of v0 before the timer fires, and let the timer
fire.  The state at fire time holds the FP label for v0, yet the debounced
write (the second and last dispatched payload) carries the empty label map
captured when the timer was scheduled, so the mutation made after the timer
was started is NOT included in the debounced payload, contradicting the
claimed fire-time snapshot. -/
theorem c1_debounce_freshness_cex :
    (runEvents demoState [.navNext, .setLabel "v0" .FP "x", .tick DEBOUNCE_MS]).2 =
      [⟨1, [("v0", ⟨.FP, "x"⟩)]⟩, ⟨1, []⟩] ∧
    labelsGet (runEvents demoState
      [.navNext, .setLabel "v0" .FP "x", .tick DEBOUNCE_MS]).1.labels "v0" =
      ⟨.FP, "x"⟩ ∧
    labelsGet ([] : LabelMap) "v0" = ⟨.TP, ""⟩ := by decide

/-- C1 amended: the payload of the debounced write is the page and label-map
snapshot passed to debouncedSave when the timer was last (re)started, not the
state at fire time: firing dispatches exactly the scheduled snapshot,
navigation schedules a timer capturing the target page and the labels read at
schedule time, and a label mutation made while the timer is pending leaves the
pending timer, and hence the payload the debounced write will carry,
unchanged (the mutation instead dispatches its own immediate write). -/
theorem c1_debounce_schedule_capture (st : FrontState) (t : Timer)
    (k : String) (s : LabelStatus) (tg : String) (h : st.timer = some t) :
    step st (.tick t.remaining) =
      ({ st with timer := none }, [⟨t.page, t.labels⟩]) ∧
    (step st .navNext).1.timer =
      some ⟨nextPageKey st.currentPage st.videoKeys.length PAGE_SIZE,
        st.labels, DEBOUNCE_MS⟩ ∧
    (step st (.setLabel k s tg)).1.timer = some t := by
  refine ⟨?_, rfl, ?_⟩
  · simp [step, h]
  · simp [step, h]

/-- C1 witness: the amended statement instantiated at the demo session with a
pending timer scheduled over the empty label map. -/
theorem c1_debounce_schedule_capture_witness :
    step demoTimerState (.tick DEBOUNCE_MS) =
      ({ demoTimerState with timer := none }, [⟨0, []⟩]) ∧
    (step demoTimerState .navNext).1.timer =
      some ⟨nextPageKey 0 1 PAGE_SIZE, [("v0", ⟨.FP, "y"⟩)], DEBOUNCE_MS⟩ ∧
    (step demoTimerState (.setLabel "v0" .TP "")).1.timer =
      some ⟨0, [], DEBOUNCE_MS⟩ :=
  c1_debounce_schedule_capture demoTimerState ⟨0, [], DEBOUNCE_MS⟩
    "v0" .TP "" rfl

/-- C2, counterexample to the claim as stated: a burst consisting of a single
label-set mutation (N = 1) dispatches one write immediately, during the
burst, and leaves no pending timer, so no debounced write follows the pause:
both the zero-writes-during-burst part and the
timer-restart-on-every-mutation part fail for label-set mutations, which save
immediately and never touch the debounce timer. -/
theorem c2_label_burst_cex :
    (runEvents demoState [.setLabel "v0" .FP ""]).2.length = 1 ∧
    (runEvents demoState [.setLabel "v0" .FP ""]).1.timer = none ∧
    (runEvents demoState [.setLabel "v0" .FP "", .tick DEBOUNCE_MS]).2.length = 1 := by
  decide

/-- C2 amended: for every burst of N >= 1 explicit navigations in which each
consecutive pair is separated by less than the 500 ms window, zero writes are
dispatched during the burst, each navigation (re)starts the single pending
timer, and exactly one write is dispatched once activity pauses for the full
window, carrying the page reached by the last navigation and the label map as
of the last mutation (unchanged through the burst).  Label-set mutations are
not debounced: each dispatches an immediate write (see the counterexample). -/
theorem c2_nav_burst_debounce (st : FrontState) (first : NavDir)
    (rest : List (ℕ × NavDir)) (hgap : ∀ p ∈ rest, p.1 < DEBOUNCE_MS) :
    (runEvents st (burstEvents first rest)).2 = [] ∧
    (runEvents st (burstEvents first rest)).1.labels = st.labels ∧
    (runEvents st (burstEvents first rest)).1.timer =
      some ⟨(runEvents st (burstEvents first rest)).1.currentPage, st.labels,
        DEBOUNCE_MS⟩ ∧
    (runEvents st (burstEvents first rest ++ [.tick DEBOUNCE_MS])).2 =
      [⟨(runEvents st (burstEvents first rest)).1.currentPage, st.labels⟩] ∧
    (runEvents st (burstEvents first rest ++ [.tick DEBOUNCE_MS])).1.timer =
      none := by
  obtain ⟨P, hnav⟩ := step_nav st first
  have hb : burstEvents first rest = navEvent first :: burstTail rest := rfl
  have hrun : runEvents st (burstEvents first rest) =
      ((runEvents (navState st P) (burstTail rest)).1,
        (runEvents (navState st P) (burstTail rest)).2) := by
    rw [hb, runEvents_cons, hnav]
    simp
  obtain ⟨h1, h2, h3⟩ := burst_tail_run rest hgap (navState st P) rfl
  have hfin1 : (runEvents st (burstEvents first rest)).2 = [] := by
    rw [hrun]; exact h1
  have hfin2 : (runEvents st (burstEvents first rest)).1.labels = st.labels := by
    rw [hrun]; exact h2
  have hfin3 : (runEvents st (burstEvents first rest)).1.timer =
      some ⟨(runEvents st (burstEvents first rest)).1.currentPage, st.labels,
        DEBOUNCE_MS⟩ := by
    rw [hrun]; exact h3
  have hstepT : step (runEvents st (burstEvents first rest)).1 (.tick DEBOUNCE_MS) =
      ({ (runEvents st (burstEvents first rest)).1 with timer := none },
        [⟨(runEvents st (burstEvents first rest)).1.currentPage, st.labels⟩]) := by
    simp [step, hfin3]
  refine ⟨hfin1, hfin2, hfin3, ?_, ?_⟩
  · rw [runEvents_append, hfin1, runEvents_cons, hstepT]
    simp [runEvents]
  · rw [runEvents_append, runEvents_cons, hstepT]
    simp [runEvents]

/-- C2 witness: the amended statement instantiated at the demo session for a
burst of three navigations with gaps of 100 ms and 200 ms. -/
theorem c2_nav_burst_debounce_witness :
    (runEvents demoState (burstEvents .next [(100, .next), (200, .prev)])).2 = [] ∧
    (runEvents demoState (burstEvents .next [(100, .next), (200, .prev)])).1.labels = [] ∧
    (runEvents demoState (burstEvents .next [(100, .next), (200, .prev)])).1.timer =
      some ⟨(runEvents demoState
        (burstEvents .next [(100, .next), (200, .prev)])).1.currentPage, [],
        DEBOUNCE_MS⟩ ∧
    (runEvents demoState
        (burstEvents .next [(100, .next), (200, .prev)] ++ [.tick DEBOUNCE_MS])).2 =
      [⟨(runEvents demoState
        (burstEvents .next [(100, .next), (200, .prev)])).1.currentPage, []⟩] ∧
    (runEvents demoState
        (burstEvents .next [(100, .next), (200, .prev)] ++ [.tick DEBOUNCE_MS])).1.timer =
      none :=
  c2_nav_burst_debounce demoState .next [(100, .next), (200, .prev)] (by decide)

/-- C3: manual save at any moment dispatches exactly one immediate write
whose payload is the current page and label map read at the moment of the
call, leaves the whole session state, in particular a still-pending debounce
timer, untouched, and when a timer is pending the debounced write still
follows once its delay elapses, as a second write.  Because undisturbed
events in the browser run against the committed state, stateRef.current at
the moment of the manual-save click equals the state left by the preceding
mutation, so instantiating st with any post-mutation state covers the
save-immediately-after-mutation case. -/
theorem c3_manual_save_bypass (st : FrontState) :
    (step st .manualSave).2 = [⟨st.currentPage, st.labels⟩] ∧
    (step st .manualSave).1 = st ∧
    (∀ t : Timer, st.timer = some t →
      (runEvents st [.manualSave, .tick t.remaining]).2 =
        [⟨st.currentPage, st.labels⟩, ⟨t.page, t.labels⟩]) := by
  refine ⟨rfl, rfl, ?_⟩
  intro t ht
  simp [runEvents, step, savePayload, ht]

/-- C3 witness: manual save on the demo session with a pending timer, one
labelled video, before the debounce delay has elapsed: the manual write
carries the fresh label map and the debounced write still follows. -/
theorem c3_manual_save_bypass_witness :
    (step demoTimerState .manualSave).2 = [⟨0, [("v0", ⟨.FP, "y"⟩)]⟩] ∧
    (runEvents demoTimerState [.manualSave, .tick DEBOUNCE_MS]).2 =
      [⟨0, [("v0", ⟨.FP, "y"⟩)]⟩, ⟨0, []⟩] := by
  have h := c3_manual_save_bypass demoTimerState
  exact ⟨h.1, h.2.2 ⟨0, [], DEBOUNCE_MS⟩ rfl⟩

/-- C4, counterexample to the claim as stated: a snapshot with lastPage 100
loaded against a three-item catalog (one page at PAGE_SIZE 6) initializes
currentPage to 100, which is not a valid page index: no clamping happens at
load time. -/
theorem c4_load_clamp_cex :
    (initApp ⟨["a.mp4", "b.mp4", "c.mp4"], [], 100⟩).currentPage = 100 ∧
    totalPages (initApp ⟨["a.mp4", "b.mp4", "c.mp4"], [], 100⟩).videoKeys.length
      PAGE_SIZE = 1 ∧
    ¬ ((initApp ⟨["a.mp4", "b.mp4", "c.mp4"], [], 100⟩).currentPage <
        (totalPages 3 PAGE_SIZE : ℤ)) := by decide

/-- C4 amended: initialization restores lastPage verbatim (the falsy
fallback only maps 0 to 0), with no clamping against the current catalog, so
after initialization currentPage is a valid page index only when the stored
lastPage already lies within the interval from 0 to totalPages - 1 computed
against the current catalog size. -/
theorem c4_load_restore (resp : InitResponse)
    (h0 : 0 ≤ resp.lastPage)
    (hlt : resp.lastPage <
      (totalPages resp.videoKeys.length PAGE_SIZE : ℤ)) :
    (initApp resp).currentPage = resp.lastPage ∧
    0 ≤ (initApp resp).currentPage ∧
    (initApp resp).currentPage <
      (totalPages (initApp resp).videoKeys.length PAGE_SIZE : ℤ) := by
  exact ⟨rfl, h0, hlt⟩

/-- C4 witness: the amended statement instantiated at a one-item catalog with
stored page 0. -/
theorem c4_load_restore_witness :
    (initApp ⟨["a.mp4"], [], 0⟩).currentPage = 0 ∧
    0 ≤ (initApp ⟨["a.mp4"], [], 0⟩).currentPage ∧
    (initApp ⟨["a.mp4"], [], 0⟩).currentPage <
      (totalPages (initApp ⟨["a.mp4"], [], 0⟩).videoKeys.length PAGE_SIZE : ℤ) :=
  c4_load_restore ⟨["a.mp4"], [], 0⟩ (by decide) (by decide)

/-- C5, counterexample to the claim as stated: on an empty catalog the
advance-by-one keydown computes min(0 + 1, totalPages - 1) = -1, a negative
page index, whereas the claimed clamp max(0, min(requested, totalPages - 1))
yields 0: navigation does not clamp through the claimed two-sided formula and
can produce a negative page index. -/
theorem c5_nav_negative_cex :
    nextPageKey 0 0 PAGE_SIZE = -1 ∧
    clampPageSpec (0 + 1) (totalPages 0 PAGE_SIZE : ℤ) = 0 ∧
    nextPageKey 0 0 PAGE_SIZE < 0 := by decide

/-- C5 amended: totalPages is the ceiling of catalogSize / pageSize with the
zero case, and the stated concrete values hold; however each navigation
clamps only one-sidedly (advance by +1 through min with totalPages - 1,
advance by -1 through max with 0, in both the keydown handler and the
Pagination buttons), and these agree with the spec clamp
max(0, min(requested, totalPages - 1)) only when the current page is already
a valid index, in which case no navigation produces a negative page index; on
an empty catalog advancing yields -1 (see the counterexample). -/
theorem c5_page_arithmetic (n ps : ℕ) (cur : ℤ) (hps : 0 < ps)
    (h0 : 0 ≤ cur) (hlt : cur < (totalPages n ps : ℤ)) :
    (totalPages 0 8 = 0 ∧ totalPages 17 8 = 3 ∧
      clampPageSpec 5 3 = 2 ∧ clampPageSpec (-1) 3 = 0) ∧
    nextPageKey cur n ps = clampPageSpec (cur + 1) (totalPages n ps : ℤ) ∧
    prevPageKey cur = clampPageSpec (cur - 1) (totalPages n ps : ℤ) ∧
    paginationNext cur (totalPages n ps : ℤ) = nextPageKey cur n ps ∧
    paginationPrev cur = prevPageKey cur ∧
    0 ≤ nextPageKey cur n ps ∧ 0 ≤ prevPageKey cur ∧
    n ≤ ps * totalPages n ps ∧ ps * totalPages n ps < n + ps := by
  have hn : 0 < n := by
    by_contra hc
    have hn0 : n = 0 := by omega
    subst hn0
    have hz : totalPages 0 ps = 0 := by
      unfold totalPages
      exact Nat.div_eq_of_lt (by omega)
    rw [hz] at hlt
    simp at hlt
    omega
  have hceil : n ≤ ps * totalPages n ps ∧ ps * totalPages n ps < n + ps := by
    unfold totalPages
    have hdm := Nat.div_add_mod (n + ps - 1) ps
    have hmod := Nat.mod_lt (n + ps - 1) hps
    set q := (n + ps - 1) / ps with hq
    set r := (n + ps - 1) % ps with hr
    generalize hQ : ps * q = Q at hdm ⊢
    omega
  refine ⟨by decide, ?_, ?_, ?_, rfl, ?_, ?_, hceil.1, hceil.2⟩
  · unfold nextPageKey clampPageSpec
    omega
  · unfold prevPageKey clampPageSpec
    omega
  · unfold paginationNext nextPageKey
    omega
  · unfold nextPageKey
    omega
  · unfold prevPageKey
    omega

/-- C5 witness: the amended statement instantiated at a 17-item catalog with
page size 8 from current page 1. -/
theorem c5_page_arithmetic_witness :
    (totalPages 0 8 = 0 ∧ totalPages 17 8 = 3 ∧
      clampPageSpec 5 3 = 2 ∧ clampPageSpec (-1) 3 = 0) ∧
    nextPageKey 1 17 8 = clampPageSpec (1 + 1) (totalPages 17 8 : ℤ) ∧
    prevPageKey 1 = clampPageSpec (1 - 1) (totalPages 17 8 : ℤ) ∧
    paginationNext 1 (totalPages 17 8 : ℤ) = nextPageKey 1 17 8 ∧
    paginationPrev 1 = prevPageKey 1 ∧
    0 ≤ nextPageKey 1 17 8 ∧ 0 ≤ prevPageKey 1 ∧
    17 ≤ 8 * totalPages 17 8 ∧ 8 * totalPages 17 8 < 17 + 8 :=
  c5_page_arithmetic 17 8 1 (by decide) (by decide) (by decide)

/-- C6: when the loaded labels mapping binds an item identifier to a bare
disposition string (the legacy shape), the page annotation upgrades it on
load to that disposition with an empty tag.  FP is the reject disposition. -/
theorem c6_legacy_upgrade (labels : StoredLabels) (key s : String)
    (h : (labels.find? (fun p => p.1 == key)).map (fun p => p.2) =
      some (.legacyStr s))
    (hs : s ≠ "") :
    annotateLabel labels key = (s, "") := by
  simp [annotateLabel, h, hs]

/-- C6 witness: loading a map binding a.mp4 to the bare string FP resolves
a.mp4 to disposition FP (reject) with an empty tag. -/
theorem c6_legacy_upgrade_witness :
    annotateLabel [("a.mp4", .legacyStr "FP")] "a.mp4" = ("FP", "") :=
  c6_legacy_upgrade [("a.mp4", .legacyStr "FP")] "a.mp4" "FP"
    (by decide) (by decide)

/-- C7: a failed persistence write raises the user-visible failure alert but
does not roll back the in-memory label store: every key resolves to the same
label before and after the failed write, and a subsequent manual save
dispatches the identical, still-intact payload. -/
theorem c7_write_failure_resilience (st : FrontState) (id : String) :
    (saveState st false).2.2 = true ∧
    labelsGet (saveState st false).1.labels id = labelsGet st.labels id ∧
    (saveState (saveState st false).1 true).2.1 = (saveState st false).2.1 := by
  simp [saveState]

/-- C8: label store laws over any sequence of set calls starting from the
empty store: reading a key returns exactly the value of the last set to that
key, independent of all intervening sets to other keys, and a key never set
resolves to the default accept disposition TP with an empty tag, never
failing. -/
theorem c8_label_store_laws (ops : List (String × VideoLabel)) (k : String) :
    labelsGet (applySets [] ops) k = (lastSetTo ops k).getD ⟨.TP, ""⟩ ∧
    labelsGet ([] : LabelMap) k = ⟨.TP, ""⟩ := by
  constructor
  · rw [get_applySets]
    rfl
  · rfl

/-- C9: for every catalog and non-empty (after trimming) query, when index i
holds the first catalog identifier containing the query as a case-insensitive
substring, the search jumps to page i / pageSize with in-page index
i % pageSize; when no identifier matches, the search reports not-found and
leaves the cursor (page and focus) unchanged. -/
theorem c9_search_first_match (keys : List String) (ps : ℕ) (q : String)
    (cursor : ℤ × ℕ) (hq : trimJS q ≠ "") :
    (∀ i, matchesAt keys q i = true →
      (∀ j, j < i → matchesAt keys q j = false) →
      handleSearch keys ps q cursor =
        ((((i / ps : ℕ) : ℤ), i % ps), SearchOutcome.jumped (i / ps) (i % ps))) ∧
    ((∀ k ∈ keys, includesCI k q = false) →
      handleSearch keys ps q cursor = (cursor, .notFound)) := by
  constructor
  · intro i hi hmin
    unfold handleSearch
    rw [if_neg hq, findIndexJS_first _ keys i hi hmin]
  · intro hall
    unfold handleSearch
    rw [if_neg hq, findIndexJS_none_of _ keys hall]

/-- C9 witness: the stated concrete example: catalog of three keys, page
size 2, query c, first match at catalog index 2, giving page 1 and in-page
index 0. -/
theorem c9_search_first_match_witness :
    handleSearch ["x/a.mp4", "x/b.mp4", "y/c.mp4"] 2 "c" (0, 0) =
      ((1, 0), .jumped 1 0) := by
  have h := (c9_search_first_match ["x/a.mp4", "x/b.mp4", "y/c.mp4"] 2 "c"
    (0, 0) (by decide)).1 2 (by decide) (by decide)
  exact h

/-- C10: on POST /api/save the backend replaces its in-memory dbState with
the request body before attempting the durable write, so on a failed write it
returns status 500, leaves the durable document unchanged, and every
subsequent GET /api/init serves the payload of the failed save rather than
the last durably persisted document. -/
theorem c10_backend_save_not_atomic (st : BackendState) (body : Payload) :
    (apiSave st body false).1.dbState = body ∧
    (apiSave st body false).2 = 500 ∧
    (apiSave st body false).1.s3Doc = st.s3Doc ∧
    apiInit (apiSave st body false).1 =
      ⟨st.cachedVideoKeys, body.labels, body.lastPage⟩ := by
  simp [apiSave, apiInit]
